import Mathlib

/-!
Shallow embedding of the analysis-session controller of the CodeOrigin app
(`src/src/components/CodeInputPanel.tsx`, the `App` component): input
validation, the `/analyze` request/response handling, result normalization,
the view state machine, and the bounded history log.  JavaScript strings are
modelled as Lean `String`s (the inputs of interest are ASCII, so UTF-16
length and character counts coincide); JSON numbers are modelled as `ℚ`;
optional or possibly-malformed JSON fields are modelled as `Option`.
-/

/-- `type ResultType = 'ai' | 'human'`. -/
inductive ResultType where
  | ai
  | human
deriving DecidableEq

/-- `ResultData` as produced by normalization in `handleAnalyze`.  In the
source the `model` field is optional in the interface, but normalization
always fills it (`dataRaw.model ?? 'Heuristic'`), so here it is a plain
string.  `confidence` is an integer after normalization. -/
structure ResultData where
  type : ResultType
  confidence : Int
  reasons : List String
  model : String
deriving DecidableEq

/-- The raw `/analyze` response body (`Partial<ResultData>` in the source),
field by field as the normalization code discriminates it:
`type = some s` when the field holds the string `s` (anything else behaves
like `none`, since only `=== 'ai'` is tested); `confidence = some q` when
`typeof dataRaw.confidence === 'number'`; `reasons = some l` when
`Array.isArray(dataRaw.reasons)`; `model = some m` when the field is
non-nullish. -/
structure RawResult where
  type : Option String
  confidence : Option ℚ
  reasons : Option (List String)
  model : Option String
deriving DecidableEq

/-- JavaScript `Math.max` on two numbers. -/
def jsMax (a b : Int) : Int := if a ≤ b then b else a

/-- JavaScript `Math.min` on two numbers. -/
def jsMin (a b : Int) : Int := if a ≤ b then a else b

/-- JavaScript `Math.round`: round half toward positive infinity,
`Math.round x = ⌊x + 1/2⌋`, computed by integer floor-division so that it
evaluates by kernel reduction; `jsRound_eq_floor` below certifies the
closed form. -/
def jsRound (q : ℚ) : Int := Int.fdiv (2 * q.num + q.den) (2 * q.den)

/-- `jsRound` is exactly `⌊q + 1/2⌋`, JavaScript's round-half-up. -/
theorem jsRound_eq_floor (q : ℚ) : jsRound q = ⌊q + 1/2⌋ := by
  have hden : (q.den : ℚ) ≠ 0 := Nat.cast_ne_zero.mpr q.den_nz
  have hnum : (q.num : ℚ) = q * q.den := (div_eq_iff hden).mp (Rat.num_div_den q)
  have hq : q + 1/2 = ((2 * q.num + (q.den : ℤ) : ℤ) : ℚ) / ((2 * q.den : ℕ) : ℚ) := by
    push_cast
    field_simp
    rw [hnum]
    ring
  rw [hq, Rat.floor_intCast_div_natCast]
  unfold jsRound
  rw [Int.fdiv_eq_ediv _ (by positivity)]
  norm_num

/-- The placeholder inserted when `reasons` is absent or not an array. -/
def NO_REASONS_PLACEHOLDER : String := "No reasons provided by backend."

/-- The `normalized` value computed in `handleAnalyze` from the parsed 2xx
response body:

* `type: dataRaw.type === 'ai' ? 'ai' : 'human'`
* `confidence: typeof c === 'number' ? Math.max(0, Math.min(100, Math.round(c))) : 55`
* `reasons: Array.isArray(r) ? r : ['No reasons provided by backend.']`
* `model: dataRaw.model ?? 'Heuristic'`. -/
def normalizeResult (dataRaw : RawResult) : ResultData :=
  { type := if dataRaw.type = some "ai" then ResultType.ai else ResultType.human
    confidence :=
      match dataRaw.confidence with
      | some q => jsMax 0 (jsMin 100 (jsRound q))
      | none => 55
    reasons :=
      match dataRaw.reasons with
      | some l => l
      | none => [NO_REASONS_PLACEHOLDER]
    model := dataRaw.model.getD "Heuristic" }

/-! ## String helpers: JavaScript string operations used by the controller -/

/-- The space character, `' '` in JavaScript. -/
def spaceChar : Char := Char.ofNat 32

/-- Core of `replace(/\s+/g, ' ')`: each maximal run of whitespace becomes a
single space.  The boolean accumulator records whether the previous character
was part of a whitespace run. -/
def collapseWsAux : List Char → Bool → List Char
  | [], _ => []
  | c :: cs, prevWs =>
    if c.isWhitespace then
      if prevWs then collapseWsAux cs true
      else spaceChar :: collapseWsAux cs true
    else c :: collapseWsAux cs false

/-- JavaScript `code.replace(/\s+/g, ' ')`. -/
def collapseWs (s : String) : String := String.mk (collapseWsAux s.data false)

/-- JavaScript `String.prototype.trim`: strip leading and trailing
whitespace. -/
def jsTrim (s : String) : String :=
  String.mk (((s.data.dropWhile Char.isWhitespace).reverse.dropWhile
    Char.isWhitespace).reverse)

/-- JavaScript `s.slice(0, n)` (the inputs of interest are ASCII, so UTF-16
units and characters coincide). -/
def jsSlice0 (s : String) (n : Nat) : String := String.mk (s.data.take n)

/-- JavaScript `s.length`. -/
def jsLength (s : String) : Nat := s.data.length

/-! ## View state, history and the controller state -/

/-- `type ViewState = 'empty' | 'loading' | 'result' | 'error'`. -/
inductive ViewState where
  | empty
  | loading
  | result
  | error
deriving DecidableEq

/-- `status: 'success' | 'error'` of a `HistoryItem`. -/
inductive HistoryStatus where
  | success
  | error
deriving DecidableEq

/-- `interface HistoryItem` from the source. -/
structure HistoryItem where
  id : Nat
  timestamp : String
  language : String
  codePreview : String
  status : HistoryStatus
  result : Option ResultData
  errorMessage : Option String
deriving DecidableEq

/-- The React state of the `App` component that the claims are about:
`code`, `language`, `state`, `result`, `errorMessage`, `history`.  The
purely presentational state variables (`openSection`, `showPasteHint`,
`lastAnalyzedAt`, `animatedConfidence`, `analysisDuration`) carry no logic
the claims mention and are omitted. -/
structure AppState where
  code : String
  language : String
  state : ViewState
  result : Option ResultData
  errorMessage : Option String
  history : List HistoryItem
deriving DecidableEq

/-- The initial `useState` values: `code ''`, `language 'auto'`,
`state 'empty'`, `result null`, `errorMessage null`, `history []`. -/
def initialState : AppState :=
  { code := ""
    language := "auto"
    state := ViewState.empty
    result := none
    errorMessage := none
    history := [] }

/-- The `codePreview` string computed inside `addToHistory` before the
`|| '(empty)'` default: collapse whitespace, trim, take the first 80
characters, and append a truncation marker when the ORIGINAL code is longer
than 80 characters. -/
def rawCodePreview (code : String) : String :=
  jsSlice0 (jsTrim (collapseWs code)) 80 ++ (if jsLength code > 80 then "…" else "")

/-- `codePreview || '(empty)'`. -/
def codePreviewOf (code : String) : String :=
  if rawCodePreview code = "" then "(empty)" else rawCodePreview code

/-- `addToHistory` from the source: build the entry with
`id: prev.length + 1`, `timestamp: now.toLocaleTimeString()` (passed here as
the opaque string `now`), the code preview of the closure-captured `code`,
prepend it, and truncate to 10 entries with `.slice(0, 10)`. -/
def addToHistory (history : List HistoryItem) (code : String) (now : String)
    (language : String) (status : HistoryStatus) (result : Option ResultData)
    (errorMessage : Option String) : List HistoryItem :=
  ({ id := history.length + 1
     timestamp := now
     language := language
     codePreview := codePreviewOf code
     status := status
     result := result
     errorMessage := errorMessage } :: history).take 10

/-! ## The analysis operation -/

/-- The outbound request payload: `body: JSON.stringify({ code, language })`
of the `POST` to `/analyze`. -/
structure AnalyzeRequest where
  code : String
  language : String
deriving DecidableEq

/-- `MIN_CODE_LENGTH = 20`. -/
def MIN_CODE_LENGTH : Nat := 20

/-- The synchronous prefix of `handleAnalyze`, up to and including the
`fetch` call: return early when `!code.trim()`; otherwise set
`state = 'loading'`, clear `errorMessage`, and issue exactly one request
carrying the current `{code, language}`.  The returned option is the
outbound request, `none` when no request was issued. -/
def handleAnalyzeStart (s : AppState) : AppState × Option AnalyzeRequest :=
  if jsTrim s.code = "" then (s, none)
  else ({ s with state := ViewState.loading, errorMessage := none },
        some { code := s.code, language := s.language })

/-- A JavaScript thrown value, as the `catch` block discriminates it with
`err instanceof Error`: an `Error` object carrying a `message`, or any
non-`Error` value. -/
inductive JsThrown where
  | errorObj (message : String)
  | nonErrorValue
deriving DecidableEq

/-- How the awaited `fetch` settles.  `success raw` is a 2xx response whose
body parsed to `raw`.  `httpError status errField` is a non-2xx response:
`errField = some e` when the body parsed to an object whose `error` field is
the string `e`, `none` when the body could not be parsed (the inner `catch`
swallows the parse error and `backendMessage` stays `''`).
`transportError thrown` is a rejection of `fetch` itself or of `res.json()`
on a 2xx response (the fetch standard rejects with a `TypeError`, and JSON
parse failures reject with a `SyntaxError` — both `Error` objects). -/
inductive FetchOutcome where
  | success (raw : RawResult)
  | httpError (status : Nat) (errField : Option String)
  | transportError (thrown : JsThrown)
deriving DecidableEq

/-- The status-derived fallback message: `Server error (status N)`. -/
def serverErrorMessage (status : Nat) : String :=
  "Server error (status " ++ toString status ++ ")"

/-- The generic connectivity fallback used when the thrown value is not an
`Error` object: the right-hand side of
`err instanceof Error ? err.message : '...'`. -/
def GENERIC_FAILURE_MESSAGE : String := "Unable to reach the server. Please try again."

/-- The message of the `Error` thrown on a non-2xx response:
`backendMessage || Server error (status N)` where `backendMessage` is
`errJson.error || ''` (so an absent body, an unparseable body, or an empty
`error` field all fall back to the status message). -/
def httpErrorMessage (status : Nat) (errField : Option String) : String :=
  if errField.getD "" = "" then serverErrorMessage status else errField.getD ""

/-- The message computed in the `catch` block:
`err instanceof Error ? err.message : 'Unable to reach the server. ...'`. -/
def catchMessage (thrown : JsThrown) : String :=
  match thrown with
  | JsThrown.errorObj m => m
  | JsThrown.nonErrorValue => GENERIC_FAILURE_MESSAGE

/-- The continuation of `handleAnalyze` after the awaited `fetch` settles,
applied to the state current at that moment.  `capturedCode` and
`capturedLanguage` are the closure-captured `code` and `language` of the
render in which `handleAnalyze` was invoked (used by `addToHistory` and its
code preview); the `setState`/`setResult`/`setErrorMessage` calls and the
functional `setHistory` update act on the current state `s`.  `now` stands
for the wall-clock timestamp string.  On success: store the normalized
result, enter `'result'`, append a success entry.  On a non-2xx response or
a rejection: compute the message as the `catch` block does, store it, clear
`result`, enter `'error'`, append an error entry. -/
def handleAnalyzeComplete (s : AppState) (capturedCode capturedLanguage : String)
    (outcome : FetchOutcome) (now : String) : AppState :=
  match outcome with
  | FetchOutcome.success raw =>
    let normalized := normalizeResult raw
    { s with
        result := some normalized
        state := ViewState.result
        history := addToHistory s.history capturedCode now capturedLanguage
          HistoryStatus.success (some normalized) none }
  | FetchOutcome.httpError status errField =>
    let message := catchMessage (JsThrown.errorObj (httpErrorMessage status errField))
    { s with
        errorMessage := some message
        result := none
        state := ViewState.error
        history := addToHistory s.history capturedCode now capturedLanguage
          HistoryStatus.error none (some message) }
  | FetchOutcome.transportError thrown =>
    let message := catchMessage thrown
    { s with
        errorMessage := some message
        result := none
        state := ViewState.error
        history := addToHistory s.history capturedCode now capturedLanguage
          HistoryStatus.error none (some message) }

/-- `handleReset`: `setCode('')`, `setResult(null)`, `setErrorMessage(null)`,
`setState('empty')`; the history is not touched. -/
def handleReset (s : AppState) : AppState :=
  { s with
      code := ""
      result := none
      errorMessage := none
      state := ViewState.empty }

/-- `setCode` (the textarea `onChange`). -/
def setCode (s : AppState) (c : String) : AppState := { s with code := c }

/-- `setLanguage` (the language select `onChange`). -/
def setLanguage (s : AppState) (l : String) : AppState := { s with language := l }

/-! ## The buttons that invoke `handleAnalyze` -/

/-- `isLoading = state === 'loading'`. -/
def isLoading (s : AppState) : Bool := decide (s.state = ViewState.loading)

/-- `isCodeValid = code.trim().length >= MIN_CODE_LENGTH`. -/
def isCodeValid (s : AppState) : Bool :=
  decide (MIN_CODE_LENGTH ≤ jsLength (jsTrim s.code))

/-- Clicking the Analyze Origin button:
`disabled={isLoading || !isCodeValid}`, and a disabled button does not fire
its `onClick={handleAnalyze}`. -/
def clickAnalyze (s : AppState) : AppState × Option AnalyzeRequest :=
  if isLoading s || !isCodeValid s then (s, none) else handleAnalyzeStart s

/-- Clicking the Retry button: it is rendered only when
`state === 'error'`, with `disabled={isLoading || !code.trim()}` and
`onClick={handleAnalyze}`. -/
def clickRetry (s : AppState) : AppState × Option AnalyzeRequest :=
  if s.state = ViewState.error then
    if isLoading s || decide (jsTrim s.code = "") then (s, none)
    else handleAnalyzeStart s
  else (s, none)

/-! ## Sequential attempts, for the history claims -/

/-- One full sequential attempt: put `code` in the buffer, click Analyze,
and — when a request was issued — let it complete with `outcome` while the
closure still captures that code and the current language. -/
def runAttempt (s : AppState) (code : String) (outcome : FetchOutcome)
    (now : String) : AppState :=
  let s1 := setCode s code
  match clickAnalyze s1 with
  | (s2, some _) => handleAnalyzeComplete s2 s1.code s1.language outcome now
  | (s2, none) => s2

/-- The code snippet of the k-th attempt in the sequential runs below
(23 or more characters, so it passes the 20-character minimum). -/
def attemptCode (k : Nat) : String := "this is attempt number " ++ toString k

/-- `n` sequential successful attempts (attempt 1 first), each returning a
well-formed `ai` verdict. -/
def runAttempts (s : AppState) : Nat → AppState
  | 0 => s
  | Nat.succ m =>
    runAttempt (runAttempts s m) (attemptCode (m + 1))
      (FetchOutcome.success ⟨some "ai", some (mkRat 80 1), some ["r"], none⟩) "t"

/-- A loading-state controller with a valid code buffer, as reached right
after a submission started. -/
def loadingState : AppState :=
  { initialState with state := ViewState.loading, code := attemptCode 1 }

/-! ## Claims -/

/-- C2: for every successful (2xx) response, the confidence stored in the
normalized `AnalysisResult` is an integer in `[0, 100]` (it is an `Int` by
construction); a numeric raw confidence is rounded half-up to the nearest
integer and clamped — `⌊q + 1/2⌋` fed through `Math.min 100` and
`Math.max 0` — so raw `123.6` yields `100` and raw `-5` yields `0`; a
non-numeric raw confidence is coerced to the default `55`. -/
theorem confidence_clamped_c2 :
    (∀ raw : RawResult,
      0 ≤ (normalizeResult raw).confidence ∧ (normalizeResult raw).confidence ≤ 100) ∧
    (∀ raw : RawResult, ∀ q : ℚ, raw.confidence = some q →
      (normalizeResult raw).confidence = jsMax 0 (jsMin 100 ⌊q + 1/2⌋)) ∧
    (∀ raw : RawResult, raw.confidence = some (mkRat 1236 10) →
      (normalizeResult raw).confidence = 100) ∧
    (∀ raw : RawResult, raw.confidence = some (mkRat (-5) 1) →
      (normalizeResult raw).confidence = 0) ∧
    (∀ raw : RawResult, raw.confidence = none →
      (normalizeResult raw).confidence = 55) := by
  refine ⟨?_, ?_, ?_, ?_, ?_⟩
  · intro raw
    rcases raw with ⟨t, c, r, m⟩
    cases c with
    | none => simp [normalizeResult]
    | some q =>
      simp only [normalizeResult, jsMax, jsMin]
      constructor <;> split <;> split <;> omega
  · intro raw q h
    simp [normalizeResult, h, jsRound_eq_floor]
  · intro raw h
    simp [normalizeResult, h]
    decide
  · intro raw h
    simp [normalizeResult, h]
    decide
  · intro raw h
    simp [normalizeResult, h]

/-- C2 witness: the clauses of `confidence_clamped_c2` instantiated at
concrete raw responses (raw confidence `123.6`, `-5` and a missing one). -/
theorem confidence_clamped_c2_witness :
    (normalizeResult ⟨some "ai", some (mkRat 1236 10), some [], none⟩).confidence = 100 ∧
    (normalizeResult ⟨some "ai", some (mkRat (-5) 1), some [], none⟩).confidence = 0 ∧
    (normalizeResult ⟨some "ai", none, some [], none⟩).confidence = 55 ∧
    (normalizeResult ⟨some "ai", some (mkRat 82 1), some [], none⟩).confidence
      = jsMax 0 (jsMin 100 ⌊(mkRat 82 1) + 1/2⌋) :=
  ⟨confidence_clamped_c2.2.2.1 _ rfl,
   confidence_clamped_c2.2.2.2.1 _ rfl,
   confidence_clamped_c2.2.2.2.2 _ rfl,
   confidence_clamped_c2.2.1 _ _ rfl⟩

/-- C5: `handleReset` invoked from any session state yields `'empty'`,
clears the code buffer, discards any pending result and error message, and
leaves the history unchanged (same list, hence same length and contents). -/
theorem reset_c5 (s : AppState) :
    (handleReset s).state = ViewState.empty ∧
    (handleReset s).code = "" ∧
    (handleReset s).result = none ∧
    (handleReset s).errorMessage = none ∧
    (handleReset s).history = s.history :=
  ⟨rfl, rfl, rfl, rfl, rfl⟩

/-- C6: invoking submit while the session state is `'loading'` is rejected
with no effect: both UI paths into `handleAnalyze` — the Analyze Origin
button and the Retry button — are disabled while `isLoading`, so a click
leaves the state exactly as it is and issues no request; nothing is queued
and the in-flight request is not superseded. -/
theorem no_concurrent_submit_c6 (s : AppState) (h : s.state = ViewState.loading) :
    clickAnalyze s = (s, none) ∧ clickRetry s = (s, none) := by
  constructor
  · simp [clickAnalyze, isLoading, h]
  · simp [clickRetry, h]

/-- C6 witness: a loading-state controller with a valid code buffer; both
buttons are inert. -/
theorem no_concurrent_submit_c6_witness :
    clickAnalyze loadingState = (loadingState, none) ∧
    clickRetry loadingState = (loadingState, none) :=
  no_concurrent_submit_c6 loadingState rfl

/-- C1 counterexample: `"short"` has trimmed length 5, below the
20-character minimum, yet invoking `handleAnalyze` does not fail fast: it
moves the session state to `'loading'` and issues an outbound request
(the function's only early return is `if (!code.trim()) return`). -/
theorem short_code_submit_c1_counterexample :
    jsLength (jsTrim "short") < MIN_CODE_LENGTH ∧
    (handleAnalyzeStart { initialState with code := "short" }).1.state
      = ViewState.loading ∧
    (handleAnalyzeStart { initialState with code := "short" }).2
      = some { code := "short", language := "auto" } := by decide

/-- C1 (amended): `handleAnalyze` itself fails fast — session state left at
its current value, no request issued (and it never appends to history before
the request settles) — exactly when the trimmed code is EMPTY; the
20-character minimum is enforced only one level up, by the Analyze button's
`disabled={isLoading || !isCodeValid}`, so a click with a sub-minimum code
buffer is a no-op that issues no request. -/
theorem short_code_submit_c1_amended (s : AppState) :
    (jsTrim s.code = "" → handleAnalyzeStart s = (s, none)) ∧
    (jsTrim s.code ≠ "" → (handleAnalyzeStart s).2 ≠ none) ∧
    (jsLength (jsTrim s.code) < MIN_CODE_LENGTH → clickAnalyze s = (s, none)) := by
  refine ⟨?_, ?_, ?_⟩
  · intro h
    simp [handleAnalyzeStart, h]
  · intro h
    simp [handleAnalyzeStart, h]
  · intro h
    have hv : isCodeValid s = false := by
      simp only [isCodeValid, decide_eq_false_iff_not]
      omega
    simp [clickAnalyze, hv]

/-- C1 (amended) witness: whitespace-only code makes `handleAnalyze` a
no-op, a non-empty short code makes it issue a request, and clicking the
Analyze button with a 4-character code is a no-op. -/
theorem short_code_submit_c1_amended_witness :
    handleAnalyzeStart { initialState with code := " " }
      = ({ initialState with code := " " }, none) ∧
    (handleAnalyzeStart { initialState with code := "tiny" }).2 ≠ none ∧
    clickAnalyze { initialState with code := "tiny" }
      = ({ initialState with code := "tiny" }, none) :=
  ⟨(short_code_submit_c1_amended _).1 (by decide),
   (short_code_submit_c1_amended _).2.1 (by decide),
   (short_code_submit_c1_amended _).2.2 (by decide)⟩

/-- C3 counterexample: two concrete completions refute the claim as stated.
A 500 response whose body carries the PRESENT error field `""` does not
surface that field: the truthiness test `backendMessage || ...` discards it
for the status-derived message.  And a transport failure — `fetch` rejects
with a `TypeError`, an `Error` instance with its own message, here
`"Failed to fetch"` — surfaces that message, not the single generic
connectivity message of the source. -/
theorem failure_message_c3_counterexample :
    ((handleAnalyzeComplete loadingState (attemptCode 1) "auto"
        (FetchOutcome.httpError 500 (some "")) "t").errorMessage
      = some "Server error (status 500)" ∧ ("" : String) ≠ "Server error (status 500)") ∧
    ((handleAnalyzeComplete loadingState (attemptCode 1) "auto"
        (FetchOutcome.transportError (JsThrown.errorObj "Failed to fetch")) "t").errorMessage
      = some "Failed to fetch" ∧ "Failed to fetch" ≠ GENERIC_FAILURE_MESSAGE) := by decide

/-- C3 (amended): for every non-2xx response the session state becomes
`'error'` and the failure message equals the body's `error` field when that
field is present AND non-empty, else the status-derived
`Server error (status N)`; when the transport itself fails, the thrown
value's own message is surfaced when it is an `Error` object (as `fetch`
rejections are), and the generic connectivity message is surfaced only for
a non-`Error` thrown value.  In every failure case the same message is also
recorded in the appended history entry. -/
theorem failure_message_c3_amended (s : AppState) (c l now : String) :
    (∀ status : Nat, ∀ e : String, e ≠ "" →
      (handleAnalyzeComplete s c l (FetchOutcome.httpError status (some e)) now).state
        = ViewState.error ∧
      (handleAnalyzeComplete s c l (FetchOutcome.httpError status (some e)) now).errorMessage
        = some e) ∧
    (∀ status : Nat,
      (handleAnalyzeComplete s c l (FetchOutcome.httpError status none) now).errorMessage
        = some (serverErrorMessage status) ∧
      (handleAnalyzeComplete s c l (FetchOutcome.httpError status (some "")) now).errorMessage
        = some (serverErrorMessage status)) ∧
    (∀ m : String,
      (handleAnalyzeComplete s c l (FetchOutcome.transportError (JsThrown.errorObj m)) now).state
        = ViewState.error ∧
      (handleAnalyzeComplete s c l (FetchOutcome.transportError (JsThrown.errorObj m)) now).errorMessage
        = some m) ∧
    ((handleAnalyzeComplete s c l (FetchOutcome.transportError JsThrown.nonErrorValue) now).errorMessage
        = some GENERIC_FAILURE_MESSAGE) ∧
    (∀ outcome : FetchOutcome, ∀ t : JsThrown, outcome = FetchOutcome.transportError t →
      ((handleAnalyzeComplete s c l outcome now).history.head?).map HistoryItem.errorMessage
        = some ((handleAnalyzeComplete s c l outcome now).errorMessage)) := by
  refine ⟨?_, ?_, ?_, ?_, ?_⟩
  · intro status e h
    simp [handleAnalyzeComplete, catchMessage, httpErrorMessage, h]
  · intro status
    simp [handleAnalyzeComplete, catchMessage, httpErrorMessage]
  · intro m
    simp [handleAnalyzeComplete, catchMessage]
  · simp [handleAnalyzeComplete, catchMessage]
  · intro outcome t h
    subst h
    simp [handleAnalyzeComplete, addToHistory, List.take_succ_cons]

/-- C3 (amended) witness: scenario B — a 500 response with body
`{error: "model unavailable"}` surfaces exactly `"model unavailable"`; a
non-`Error` throw surfaces the generic message. -/
theorem failure_message_c3_amended_witness :
    (handleAnalyzeComplete loadingState (attemptCode 1) "auto"
        (FetchOutcome.httpError 500 (some "model unavailable")) "t").errorMessage
      = some "model unavailable" ∧
    (handleAnalyzeComplete loadingState (attemptCode 1) "auto"
        (FetchOutcome.transportError JsThrown.nonErrorValue) "t").errorMessage
      = some GENERIC_FAILURE_MESSAGE :=
  ⟨((failure_message_c3_amended loadingState (attemptCode 1) "auto" "t").1 500
      "model unavailable" (by decide)).2,
   (failure_message_c3_amended loadingState (attemptCode 1) "auto" "t").2.2.2.1⟩

/-- C4 counterexample: after 11 sequential attempts the history holds 10
entries, the very first attempt's entry has been evicted, and therefore the
ELEVEN most recent attempts are NOT all present — only the ten most recent
are (newest-first). -/
theorem history_cap_c4_counterexample :
    (runAttempts initialState 11).history.length = 10 ∧
    attemptCode 1 ∉ (runAttempts initialState 11).history.map HistoryItem.codePreview ∧
    ¬ (∀ k ∈ List.range' 1 11,
        attemptCode k ∈ (runAttempts initialState 11).history.map HistoryItem.codePreview) := by
  decide

/-- C4 (amended): the history never exceeds 10 entries — every append
truncates with `.slice(0, 10)`, and no other operation grows it — each new
entry is inserted at the head (newest first) with the tail truncated beyond
10; after 11 sequential attempts the entry of the very first attempt is
absent and the TEN most recent attempts are present in newest-first
order. -/
theorem history_cap_c4_amended :
    (∀ (h : List HistoryItem) (c now l : String) (st : HistoryStatus)
        (r : Option ResultData) (e : Option String),
      (addToHistory h c now l st r e).length ≤ 10) ∧
    (∀ (h : List HistoryItem) (c now l : String) (st : HistoryStatus)
        (r : Option ResultData) (e : Option String),
      addToHistory h c now l st r e
        = { id := h.length + 1, timestamp := now, language := l,
            codePreview := codePreviewOf c, status := st, result := r,
            errorMessage := e } :: h.take 9) ∧
    ((runAttempts initialState 11).history.map HistoryItem.codePreview
      = (List.range 10).map (fun i => attemptCode (11 - i)) ∧
     attemptCode 1 ∉ (runAttempts initialState 11).history.map HistoryItem.codePreview) := by
  refine ⟨?_, ?_, by decide⟩
  · intro h c now l st r e
    simp only [addToHistory]
    exact List.length_take_le 10 _
  · intro h c now l st r e
    simp [addToHistory, List.take_succ_cons]

/-- C7 counterexample: a concrete interleaving in which a stale response is
NOT dropped.  Submit a valid snippet (state `'loading'`, request issued),
reset while it is in flight (state `'empty'`, empty history), then let the
abandoned request succeed: its completion still flips the session state to
`'result'`, installs the result, and appends a history entry — the
completion handlers run unconditionally, with no correlation of the
response to an active attempt. -/
theorem stale_response_c7_counterexample :
    (handleAnalyzeStart { initialState with code := attemptCode 1 }).1.state
      = ViewState.loading ∧
    (handleAnalyzeStart { initialState with code := attemptCode 1 }).2 ≠ none ∧
    (handleReset (handleAnalyzeStart { initialState with code := attemptCode 1 }).1).state
      = ViewState.empty ∧
    (handleReset (handleAnalyzeStart { initialState with code := attemptCode 1 }).1).history
      = [] ∧
    (handleAnalyzeComplete
        (handleReset (handleAnalyzeStart { initialState with code := attemptCode 1 }).1)
        (attemptCode 1) "auto"
        (FetchOutcome.success ⟨some "ai", some (mkRat 82 1), some ["r"], none⟩)
        "t").state = ViewState.result ∧
    (handleAnalyzeComplete
        (handleReset (handleAnalyzeStart { initialState with code := attemptCode 1 }).1)
        (attemptCode 1) "auto"
        (FetchOutcome.success ⟨some "ai", some (mkRat 82 1), some ["r"], none⟩)
        "t").history.length = 1 := by decide

/-- C7 (amended): the completion of an in-flight request applies
unconditionally to whatever state the controller is in when the response
arrives — there is no generation counter or staleness guard.  A successful
completion always yields `'result'` with the normalized result installed; a
failed one always yields `'error'`; and each appends one history entry
(subject to the 10 cap), whether or not a `reset` or anything else happened
in between. -/
theorem stale_response_c7_amended (s : AppState) (c l now : String)
    (raw : RawResult) (thrown : JsThrown) :
    (handleAnalyzeComplete s c l (FetchOutcome.success raw) now).state
      = ViewState.result ∧
    (handleAnalyzeComplete s c l (FetchOutcome.success raw) now).result
      = some (normalizeResult raw) ∧
    (handleAnalyzeComplete s c l (FetchOutcome.success raw) now).history.length
      = min 10 (s.history.length + 1) ∧
    (handleAnalyzeComplete s c l (FetchOutcome.transportError thrown) now).state
      = ViewState.error ∧
    (handleAnalyzeComplete s c l (FetchOutcome.transportError thrown) now).history.length
      = min 10 (s.history.length + 1) := by
  refine ⟨rfl, rfl, ?_, rfl, ?_⟩ <;>
  · simp [handleAnalyzeComplete, addToHistory, List.length_take]
    omega

/-- The state after a failed attempt whose code was
`"const answer = 42; // original"` in language `"javascript"`: submit it and
let the request come back as a 500 with no parseable body. -/
def failedAttemptState : AppState :=
  handleAnalyzeComplete
    (handleAnalyzeStart
      { initialState with code := "const answer = 42; // original",
                          language := "javascript" }).1
    "const answer = 42; // original" "javascript"
    (FetchOutcome.httpError 500 none) "t"

/-- C8 counterexample: `retry` does not re-submit the failed attempt's code.
After the failure of an attempt with code `"const answer = 42; // original"`,
the user edits the buffer to `"let answer = 43; // edited"`; clicking Retry
(which just re-invokes `handleAnalyze`) issues a request carrying the edited
buffer, not the code of the failed attempt. -/
theorem retry_last_code_c8_counterexample :
    failedAttemptState.state = ViewState.error ∧
    (clickRetry (setCode failedAttemptState "let answer = 43; // edited")).2
      = some { code := "let answer = 43; // edited", language := "javascript" } ∧
    "let answer = 43; // edited" ≠ "const answer = 42; // original" := by decide

/-- C8 (amended): the Retry button re-invokes `handleAnalyze` with the
CURRENT code buffer and language — which coincide with the failed attempt's
values only as long as the user has not edited them — and retrying is
permitted only from the `'error'` state: in every other state the button is
not rendered (and it is further disabled while loading or when the trimmed
buffer is empty). -/
theorem retry_last_code_c8_amended (s : AppState) :
    (s.state ≠ ViewState.error → clickRetry s = (s, none)) ∧
    (s.state = ViewState.error → jsTrim s.code ≠ "" →
      clickRetry s
        = ({ s with state := ViewState.loading, errorMessage := none },
           some { code := s.code, language := s.language })) := by
  constructor
  · intro h
    simp [clickRetry, h]
  · intro h hc
    have hl : isLoading s = false := by
      simp [isLoading, h]
    simp [clickRetry, h, hl, hc, handleAnalyzeStart]

/-- C8 (amended) witness: from the concrete failed state, Retry re-submits
the unedited buffer; from the initial (empty) state, Retry is inert. -/
theorem retry_last_code_c8_amended_witness :
    clickRetry initialState = (initialState, none) ∧
    clickRetry failedAttemptState
      = ({ failedAttemptState with state := ViewState.loading, errorMessage := none },
         some { code := failedAttemptState.code,
                language := failedAttemptState.language }) :=
  ⟨(retry_last_code_c8_amended initialState).1 (by decide),
   (retry_last_code_c8_amended failedAttemptState).2 (by decide) (by decide)⟩

/-- C9 counterexample: for the scenario-C body
`{type: "human", confidence: -10, reasons: []}` (no `model` field), the
empty `reasons` array is an array, so `Array.isArray` keeps it: the
normalized reasons are `[]`, NOT the one-element placeholder the claim
demands (verdict, confidence and model come out as claimed). -/
theorem scenario_c_c9_counterexample :
    normalizeResult ⟨some "human", some (mkRat (-10) 1), some [], none⟩
      = { type := ResultType.human, confidence := 0, reasons := [],
          model := "Heuristic" } ∧
    (normalizeResult ⟨some "human", some (mkRat (-10) 1), some [], none⟩).reasons
      ≠ [NO_REASONS_PLACEHOLDER] := by decide

/-- C9 (amended): scenario C normalizes to verdict `human`, confidence `0`,
model defaulted to `"Heuristic"`, and reasons KEPT as the empty array; the
one-element placeholder is substituted only when the `reasons` field is
absent or not an array. -/
theorem scenario_c_c9_amended :
    normalizeResult ⟨some "human", some (mkRat (-10) 1), some [], none⟩
      = { type := ResultType.human, confidence := 0, reasons := [],
          model := "Heuristic" } ∧
    (∀ raw : RawResult, raw.reasons = none →
      (normalizeResult raw).reasons = [NO_REASONS_PLACEHOLDER]) := by
  refine ⟨by decide, ?_⟩
  intro raw h
  simp [normalizeResult, h]

/-- C9 (amended) witness: a body with `reasons` absent (or malformed) gets
the placeholder. -/
theorem scenario_c_c9_amended_witness :
    (normalizeResult ⟨some "human", some (mkRat (-10) 1), none, none⟩).reasons
      = [NO_REASONS_PLACEHOLDER] :=
  scenario_c_c9_amended.2 _ rfl

/-- C10 counterexample: ids are NOT strictly increasing, nor unique, once
the 10-entry cap has been reached.  `id` is computed as
`prev.length + 1`, and after the cap the length stays 10, so after 12
sequential attempts the two newest entries — created by attempts 12 and 11,
distinguishable by their code previews — both carry id 11. -/
theorem history_ids_c10_counterexample :
    ((runAttempts initialState 12).history.map HistoryItem.id)
      = [11, 11, 10, 9, 8, 7, 6, 5, 4, 3] ∧
    ((runAttempts initialState 12).history.map HistoryItem.codePreview)[0]?
      = some (attemptCode 12) ∧
    ((runAttempts initialState 12).history.map HistoryItem.codePreview)[1]?
      = some (attemptCode 11) ∧
    ((runAttempts initialState 12).history.map HistoryItem.id)[0]? = some 11 ∧
    ((runAttempts initialState 12).history.map HistoryItem.id)[1]? = some 11 := by
  decide

/-- C10 (amended): every new history entry receives
`id = history.length + 1` measured at insertion time, so ids are strictly
increasing, unique, and coincide with insertion order while the history is
below the 10-entry cap (after 10 sequential attempts the ids read
`10, 9, …, 1` newest-first); but once the cap is reached the length stays
at 10, every later entry receives id 11, and ids repeat. -/
theorem history_ids_c10_amended :
    (∀ (h : List HistoryItem) (c now l : String) (st : HistoryStatus)
        (r : Option ResultData) (e : Option String),
      ((addToHistory h c now l st r e).head?).map HistoryItem.id
        = some (h.length + 1)) ∧
    ((runAttempts initialState 10).history.map HistoryItem.id
      = [10, 9, 8, 7, 6, 5, 4, 3, 2, 1]) ∧
    (∀ (h : List HistoryItem) (c now l : String) (st : HistoryStatus)
        (r : Option ResultData) (e : Option String),
      h.length = 10 →
      ((addToHistory h c now l st r e).head?).map HistoryItem.id = some 11) := by
  refine ⟨?_, by decide, ?_⟩
  · intro h c now l st r e
    simp [addToHistory, List.take_succ_cons]
  · intro h c now l st r e hlen
    simp [addToHistory, List.take_succ_cons, hlen]

/-- C10 (amended) witness: appending to the concrete capped history produced
by 10 sequential attempts yields another id 11. -/
theorem history_ids_c10_amended_witness :
    ((addToHistory (runAttempts initialState 10).history (attemptCode 11) "t"
        "auto" HistoryStatus.error none (some "boom")).head?).map HistoryItem.id
      = some 11 :=
  history_ids_c10_amended.2.2 (runAttempts initialState 10).history
    (attemptCode 11) "t" "auto" HistoryStatus.error none (some "boom") (by decide)
